import Mathlib

set_option linter.unusedVariables false
set_option maxRecDepth 10000

/-! Shallow embedding of the v4l2-demo repository.

The repository is a small C++ wrapper class V4L2Device around V4L2 ioctls
(src/common/v4l2_utils.cpp) plus a demo main (src/demos/demo1_uyvy422/main.cpp).
The wrapper's mutable state is a file descriptor, a list of memory-mapped
buffers and a streaming flag.  Every kernel interaction (the result of each
ioctl, the format the driver reports back, the address mmap returns) is passed
in explicitly as a response value, and each operation returns, besides its
boolean result and updated state, the list of ioctl calls it issued together
with their return codes, so that theorems can speak about which ioctls ran. -/

/-- A memory-mapped frame buffer: start address, byte length and buffer index,
mirroring struct FrameBuffer in v4l2_utils.h. -/
structure FrameBuffer where
  start : Nat
  length : Nat
  index : Nat
deriving DecidableEq

/-- The state of class V4L2Device: the device file descriptor fd_, the list
buffers_ of mapped buffers and the streaming_ flag. -/
structure V4L2Device where
  fd : Int
  buffers : List FrameBuffer
  streaming : Bool
deriving DecidableEq

/-- IsOpen returns fd_ >= 0 (v4l2_utils.h). -/
def V4L2Device.IsOpen (d : V4L2Device) : Bool :=
  decide (0 ≤ d.fd)

/-- One ioctl call issued by a device operation, with its return code; for
buffer ioctls also the buffer index, and for DQBUF the bytesused the driver
filled in. -/
inductive IoctlCall where
  | querycap (ret : Int)
  | enumFmt (index : Nat) (ret : Int)
  | sFmt (ret : Int)
  | gFmt (ret : Int)
  | reqbufs (ret : Int)
  | querybuf (index : Nat) (ret : Int)
  | qbuf (index : Nat) (ret : Int)
  | dqbuf (ret : Int) (index : Nat) (bytesused : Nat)
  | streamon (ret : Int)
  | streamoff (ret : Int)
deriving DecidableEq

/-- Return code of an ioctl call. -/
def IoctlCall.retOf : IoctlCall → Int
  | .querycap r => r
  | .enumFmt _ r => r
  | .sFmt r => r
  | .gFmt r => r
  | .reqbufs r => r
  | .querybuf _ r => r
  | .qbuf _ r => r
  | .dqbuf r _ _ => r
  | .streamon r => r
  | .streamoff r => r

/-- Every ioctl recorded in a trace returned 0 or more. -/
def allNonneg (tr : List IoctlCall) : Prop :=
  ∀ c ∈ tr, 0 ≤ c.retOf

instance (tr : List IoctlCall) : Decidable (allNonneg tr) := by
  unfold allNonneg
  infer_instance

/-- QueryCapabilities (v4l2_utils.cpp:47): return false when the
VIDIOC_QUERYCAP ioctl fails, true otherwise.  The ioctl return code is the
response parameter. -/
def V4L2Device.QueryCapabilities (d : V4L2Device) (querycapRet : Int) :
    Bool × List IoctlCall :=
  if querycapRet < 0 then (false, [.querycap querycapRet])
  else (true, [.querycap querycapRet])

/-- The VIDIOC_ENUM_FMT loop of QueryFormats (v4l2_utils.cpp:63): the driver
answers index i with return 0 and the i-th element of driverFormats while
i < driverFormats.length, and with return -1 once the index is past the end,
which terminates the while loop. -/
def enumLoop : List Nat → Nat → List Nat × List IoctlCall
  | [], i => ([], [.enumFmt i (-1)])
  | f :: rest, i =>
    let p := enumLoop rest (i + 1)
    (f :: p.1, .enumFmt i 0 :: p.2)

/-- QueryFormats (v4l2_utils.cpp:55): clear the output list, enumerate formats
until VIDIOC_ENUM_FMT returns nonzero, and return true unconditionally. -/
def V4L2Device.QueryFormats (d : V4L2Device) (driverFormats : List Nat) :
    Bool × List Nat × List IoctlCall :=
  (true, enumLoop driverFormats 0)

/-- Driver response to VIDIOC_S_FMT: the ioctl return code and the pix fields
the driver wrote back into the v4l2_format struct. -/
structure SFmtResp where
  ret : Int
  width : Nat
  height : Nat
  pixelformat : Nat
deriving DecidableEq

/-- SetFormat (v4l2_utils.cpp:96): fail when the device is not open, when
VIDIOC_S_FMT fails, or when the pixelformat the driver reports back differs
from the requested one; succeed otherwise. -/
def V4L2Device.SetFormat (d : V4L2Device) (width height pixel_format : Nat)
    (resp : SFmtResp) : Bool × List IoctlCall :=
  if !d.IsOpen then (false, [])
  else if resp.ret < 0 then (false, [.sFmt resp.ret])
  else if resp.pixelformat ≠ pixel_format then (false, [.sFmt resp.ret])
  else (true, [.sFmt resp.ret])

/-- Driver response to VIDIOC_G_FMT. -/
structure GFmtResp where
  ret : Int
  width : Nat
  height : Nat
  pixelformat : Nat
deriving DecidableEq

/-- GetFormat (v4l2_utils.cpp:125): fail when the device is not open or the
VIDIOC_G_FMT ioctl fails; otherwise report the driver's width, height and
pixelformat.  The demo always passes non-null output pointers, so the null
checks of the C++ code are not modelled. -/
def V4L2Device.GetFormat (d : V4L2Device) (resp : GFmtResp) :
    Bool × Option (Nat × Nat × Nat) × List IoctlCall :=
  if !d.IsOpen then (false, none, [])
  else if resp.ret < 0 then (false, none, [.gFmt resp.ret])
  else (true, some (resp.width, resp.height, resp.pixelformat), [.gFmt resp.ret])

/-- Driver response to VIDIOC_QUERYBUF for one buffer index. -/
structure QuerybufResp where
  ret : Int
  length : Nat
  offset : Nat

/-- Kernel responses used by InitMemoryMapping: the VIDIOC_REQBUFS return
code, the buffer count the driver granted (written back into req.count), the
per-index VIDIOC_QUERYBUF responses, and the per-index mmap result (none
models MAP_FAILED). -/
structure MmapEnv where
  reqbufsRet : Int
  grantedCount : Nat
  querybufAt : Nat → QuerybufResp
  mmapAt : Nat → Option Nat

/-- The QUERYBUF/mmap loop of InitMemoryMapping (v4l2_utils.cpp:173), mapping
n buffers starting at index i.  On a QUERYBUF failure or MAP_FAILED the C++
code calls CleanupMemoryMapping, so the buffer list component is empty
whenever the boolean is false; the trace still records the calls issued. -/
def mapLoop (env : MmapEnv) : Nat → Nat → Bool × List FrameBuffer × List IoctlCall
  | 0, _ => (true, [], [])
  | n + 1, i =>
    let q := env.querybufAt i
    if q.ret < 0 then (false, [], [.querybuf i q.ret])
    else
      match env.mmapAt i with
      | none => (false, [], [.querybuf i q.ret])
      | some addr =>
        let rest := mapLoop env n (i + 1)
        if rest.1 then
          (true, ⟨addr, q.length, i⟩ :: rest.2.1, .querybuf i q.ret :: rest.2.2)
        else (false, [], .querybuf i q.ret :: rest.2.2)

/-- CleanupMemoryMapping (v4l2_utils.cpp:202): munmap every buffer and clear
the list; only the list clearing is state. -/
def V4L2Device.CleanupMemoryMapping (d : V4L2Device) : V4L2Device :=
  { d with buffers := [] }

/-- InitMemoryMapping (v4l2_utils.cpp:147): fail when the device is not open;
otherwise clear the old mapping, fail on a VIDIOC_REQBUFS error or a granted
count below 2, then query and mmap each granted buffer, cleaning up on any
failure. -/
def V4L2Device.InitMemoryMapping (d : V4L2Device) (env : MmapEnv) :
    Bool × V4L2Device × List IoctlCall :=
  if !d.IsOpen then (false, d, [])
  else
    let d0 := d.CleanupMemoryMapping
    if env.reqbufsRet < 0 then (false, d0, [.reqbufs env.reqbufsRet])
    else if env.grantedCount < 2 then (false, d0, [.reqbufs env.reqbufsRet])
    else
      let p := mapLoop env env.grantedCount 0
      if p.1 then
        (true, { d0 with buffers := p.2.1 }, .reqbufs env.reqbufsRet :: p.2.2)
      else (false, d0, .reqbufs env.reqbufsRet :: p.2.2)

/-- The VIDIOC_QBUF loop of StartStreaming (v4l2_utils.cpp:217), enqueuing n
buffers starting at index i; qbufRetAt gives the ioctl return per index. -/
def enqueueLoop (qbufRetAt : Nat → Int) : Nat → Nat → Bool × List IoctlCall
  | 0, _ => (true, [])
  | n + 1, i =>
    let r := qbufRetAt i
    if r < 0 then (false, [.qbuf i r])
    else
      let p := enqueueLoop qbufRetAt n (i + 1)
      (p.1, .qbuf i r :: p.2)

/-- StartStreaming (v4l2_utils.cpp:211): fail when the device is not open or
no buffers are mapped; enqueue every buffer, fail on the first VIDIOC_QBUF
error; fail on a VIDIOC_STREAMON error; otherwise set streaming_. -/
def V4L2Device.StartStreaming (d : V4L2Device) (qbufRetAt : Nat → Int)
    (streamonRet : Int) : Bool × V4L2Device × List IoctlCall :=
  if !d.IsOpen || d.buffers.isEmpty then (false, d, [])
  else
    let p := enqueueLoop qbufRetAt d.buffers.length 0
    if !p.1 then (false, d, p.2)
    else if streamonRet < 0 then (false, d, p.2 ++ [.streamon streamonRet])
    else (true, { d with streaming := true }, p.2 ++ [.streamon streamonRet])

/-- StopStreaming (v4l2_utils.cpp:241): return true at once when not
streaming; otherwise issue VIDIOC_STREAMOFF, failing (and leaving streaming_
set) on a negative return, and clear streaming_ on success. -/
def V4L2Device.StopStreaming (d : V4L2Device) (streamoffRet : Int) :
    Bool × V4L2Device × List IoctlCall :=
  if !d.streaming then (true, d, [])
  else if streamoffRet < 0 then (false, d, [.streamoff streamoffRet])
  else (true, { d with streaming := false }, [.streamoff streamoffRet])

/-- Close (v4l2_utils.cpp:35): stop streaming when the streaming_ flag is
set, clean up the memory mapping, and close the descriptor (setting fd_ to
-1) when it is nonnegative.  The destructor (v4l2_utils.cpp:16) consists of
exactly this call. -/
def V4L2Device.Close (d : V4L2Device) (streamoffRet : Int) : V4L2Device :=
  let d1 := if d.streaming then (d.StopStreaming streamoffRet).2.1 else d
  let d2 := d1.CleanupMemoryMapping
  if 0 ≤ d2.fd then { d2 with fd := -1 } else d2

/-- Open (v4l2_utils.cpp:20): close first when already open, then store the
descriptor the OS open call returned (newFd) into fd_, failing when it is
negative. -/
def V4L2Device.Open (d : V4L2Device) (streamoffRet : Int) (newFd : Int) :
    Bool × V4L2Device :=
  let d1 := if d.IsOpen then d.Close streamoffRet else d
  let d2 := { d1 with fd := newFd }
  if newFd < 0 then (false, d2) else (true, d2)

/-- Driver response to VIDIOC_DQBUF: return code, the dequeued buffer index
and the bytesused field. -/
structure DqbufResp where
  ret : Int
  index : Nat
  bytesused : Nat
deriving DecidableEq

/-- ReadFrame (v4l2_utils.cpp:256): fail without any ioctl when the device is
not open or not streaming; dequeue one buffer with VIDIOC_DQBUF, failing on a
negative return (EAGAIN included) or an out-of-range index; set the frame
output to the start address of the buffer with the dequeued index and to the
driver's bytesused; then requeue that buffer with VIDIOC_QBUF, failing on a
negative return. -/
def V4L2Device.ReadFrame (d : V4L2Device) (dq : DqbufResp) (qbufRet : Int) :
    Bool × Option (Nat × Nat) × List IoctlCall :=
  if !d.IsOpen || !d.streaming then (false, none, [])
  else if dq.ret < 0 then (false, none, [.dqbuf dq.ret dq.index dq.bytesused])
  else if d.buffers.length ≤ dq.index then
    (false, none, [.dqbuf dq.ret dq.index dq.bytesused])
  else
    let out := ((d.buffers.getD dq.index ⟨0, 0, 0⟩).start, dq.bytesused)
    if qbufRet < 0 then
      (false, some out, [.dqbuf dq.ret dq.index dq.bytesused, .qbuf dq.index qbufRet])
    else
      (true, some out, [.dqbuf dq.ret dq.index dq.bytesused, .qbuf dq.index qbufRet])

/-- QueueBuffer (v4l2_utils.cpp:293): fail without any ioctl when the index
is not below the number of mapped buffers; otherwise issue VIDIOC_QBUF for
that index and fail on a negative return. -/
def V4L2Device.QueueBuffer (d : V4L2Device) (index : Nat) (qbufRet : Int) :
    Bool × V4L2Device × List IoctlCall :=
  if d.buffers.length ≤ index then (false, d, [])
  else if qbufRet < 0 then (false, d, [.qbuf index qbufRet])
  else (true, d, [.qbuf index qbufRet])

/-- The four bytes of a 32-bit pixel format, least significant first, as
extracted into format[0..3] by PixelFormatToString (v4l2_utils.cpp:344). -/
def fourccBytes (pixel_format : Nat) : List Nat :=
  [pixel_format % 256, pixel_format / 256 % 256,
   pixel_format / 65536 % 256, pixel_format / 16777216 % 256]

/-- The std::string(const char*) constructor: take characters up to and not
including the first NUL byte. -/
def cString : List Nat → List Nat
  | [] => []
  | b :: rest => if b = 0 then [] else b :: cString rest

/-- PixelFormatToString (v4l2_utils.cpp:342): write the four bytes of the
format little-endian into a char array, NUL-terminate it, and build a string
from it.  The result is the list of character codes of that string. -/
def PixelFormatToString (pixel_format : Nat) : List Nat :=
  cString (fourccBytes pixel_format ++ [0])

/-- The fourcc code a | b << 8 | c << 16 | d << 24 (v4l2_fourcc in
linux/videodev2.h). -/
def v4l2Fourcc (a b c d : Nat) : Nat :=
  a + b * 256 + c * 65536 + d * 16777216

/-- YUYV fourcc code, bytes Y U Y V. -/
def V4L2_PIX_FMT_YUYV : Nat := v4l2Fourcc 0x59 0x55 0x59 0x56

/-- UYVY fourcc code, bytes U Y V Y. -/
def V4L2_PIX_FMT_UYVY : Nat := v4l2Fourcc 0x55 0x59 0x56 0x59

/-- YUV420 fourcc code, bytes Y U 1 2. -/
def V4L2_PIX_FMT_YUV420 : Nat := v4l2Fourcc 0x59 0x55 0x31 0x32

/-- MJPEG fourcc code, bytes M J P G. -/
def V4L2_PIX_FMT_MJPEG : Nat := v4l2Fourcc 0x4D 0x4A 0x50 0x47

/-- JPEG fourcc code, bytes J P E G. -/
def V4L2_PIX_FMT_JPEG : Nat := v4l2Fourcc 0x4A 0x50 0x45 0x47

/-- kPreferredFormats (main.cpp:40): preference order YUYV, UYVY, YUV420,
MJPEG, JPEG. -/
def kPreferredFormats : List Nat :=
  [V4L2_PIX_FMT_YUYV, V4L2_PIX_FMT_UYVY, V4L2_PIX_FMT_YUV420,
   V4L2_PIX_FMT_MJPEG, V4L2_PIX_FMT_JPEG]

/-- The two nested loops of SelectBestFormat (main.cpp:216): walk the
preference list, returning the first preferred format contained in the
supported list; past the end of the preference list, return the first
supported format, or 0 when there is none. -/
def selectLoop (supported_formats : List Nat) : List Nat → Nat
  | [] =>
    match supported_formats with
    | [] => 0
    | f :: _ => f
  | p :: rest =>
    if supported_formats.contains p then p else selectLoop supported_formats rest

/-- SelectBestFormat (main.cpp:214). -/
def SelectBestFormat (supported_formats : List Nat) : Nat :=
  selectLoop supported_formats kPreferredFormats

/-- kMaxSavedFrames (main.cpp:28). -/
def kMaxSavedFrames : Nat := 20

/-- kSaveIntervalSeconds (main.cpp:29), as a time difference in seconds. -/
def kSaveIntervalSeconds : Int := 1

/-- struct FrameStats (main.cpp:50); times are time_t values in seconds. -/
structure FrameStats where
  total_frames : Nat
  saved_frames : Nat
  last_save_time : Int
  last_print_time : Int
  current_frame_index : Nat
deriving DecidableEq

/-- The FrameStats initialisation in main (main.cpp:343): zero counters, all
times set to the start time, frame index 0. -/
def initStats (start : Int) : FrameStats :=
  ⟨0, 0, start, start, 0⟩

/-- One iteration of the capture loop of main (main.cpp:353), restricted to
its statistics state.  readOk is the ReadFrame result, now the time(nullptr)
value of this iteration, saveOk the SaveFrameToFile result.  On a successful
read the total count rises and PrintFrameInfo may update last_print_time;
when at least kSaveIntervalSeconds passed since the last successful save a
save is attempted, and on success the saved count rises, last_save_time is
set to now, and the frame index advances modulo kMaxSavedFrames.  The second
component reports whether a frame was saved this iteration. -/
def loopIter (stats : FrameStats) (now : Int) (readOk saveOk : Bool) :
    FrameStats × Bool :=
  if readOk then
    let s1 := { stats with total_frames := stats.total_frames + 1 }
    let s2 :=
      if 1 ≤ now - s1.last_print_time then { s1 with last_print_time := now }
      else s1
    if kSaveIntervalSeconds ≤ now - s2.last_save_time then
      if saveOk then
        ({ s2 with
            saved_frames := s2.saved_frames + 1
            last_save_time := now
            current_frame_index := (s2.current_frame_index + 1) % kMaxSavedFrames },
          true)
      else (s2, false)
    else (s2, false)
  else (stats, false)

/-- The capture loop of main run over a finite list of iteration events
(now, readOk, saveOk). -/
def runLoop (stats : FrameStats) : List (Int × Bool × Bool) → FrameStats
  | [] => stats
  | (now, readOk, saveOk) :: rest => runLoop (loopIter stats now readOk saveOk).1 rest

/-- The pipeline stages of the demo main (main.cpp:233), in program order. -/
inductive Stage where
  | findDevices
  | findCamera
  | createDir
  | openDev
  | getInfo
  | selectFmt
  | setFmt
  | getFmt
  | initMmap
  | startStream
  | captureLoop
deriving DecidableEq

/-- Outcomes of the checked stages of main: the FindVideoDevices count, the
FindFrontCamera result being nonempty, and the boolean results of
CreateOutputDirectory, Open, GetDeviceInfo, SelectBestFormat (its selected
format, 0 meaning failure), SetFormat, GetFormat, InitMemoryMapping and
StartStreaming. -/
structure MainEnv where
  deviceCount : Nat
  cameraFound : Bool
  createDirOk : Bool
  openOk : Bool
  getInfoOk : Bool
  selectedFormat : Nat
  setFormatOk : Bool
  getFormatOk : Bool
  initMmapOk : Bool
  startStreamOk : Bool

/-- The full stage order of main, ending in the capture loop. -/
def mainStages : List Stage :=
  [.findDevices, .findCamera, .createDir, .openDev, .getInfo,
   .selectFmt, .setFmt, .getFmt, .initMmap, .startStream, .captureLoop]

/-- The early-return chain of main (main.cpp:233): each stage runs in order
and a failing stage returns EXIT_FAILURE at once (second component false);
when every stage succeeds, main enters the capture loop (second component
true).  The first component lists the stages that ran. -/
def mainRun (env : MainEnv) : List Stage × Bool :=
  if env.deviceCount = 0 then ([.findDevices], false)
  else if env.cameraFound = false then ([.findDevices, .findCamera], false)
  else if env.createDirOk = false then
    ([.findDevices, .findCamera, .createDir], false)
  else if env.openOk = false then
    ([.findDevices, .findCamera, .createDir, .openDev], false)
  else if env.getInfoOk = false then
    ([.findDevices, .findCamera, .createDir, .openDev, .getInfo], false)
  else if env.selectedFormat = 0 then
    ([.findDevices, .findCamera, .createDir, .openDev, .getInfo, .selectFmt], false)
  else if env.setFormatOk = false then
    ([.findDevices, .findCamera, .createDir, .openDev, .getInfo,
      .selectFmt, .setFmt], false)
  else if env.getFormatOk = false then
    ([.findDevices, .findCamera, .createDir, .openDev, .getInfo,
      .selectFmt, .setFmt, .getFmt], false)
  else if env.initMmapOk = false then
    ([.findDevices, .findCamera, .createDir, .openDev, .getInfo,
      .selectFmt, .setFmt, .getFmt, .initMmap], false)
  else if env.startStreamOk = false then
    ([.findDevices, .findCamera, .createDir, .openDev, .getInfo,
      .selectFmt, .setFmt, .getFmt, .initMmap, .startStream], false)
  else (mainStages, true)

/-- One stage list leads into another: the first is an initial segment of the
second. -/
def listLeads (a b : List Stage) : Prop :=
  ∃ t, a ++ t = b

/-- A closed device in its constructor state. -/
def devClosed : V4L2Device := ⟨-1, [], false⟩

/-- An open device with no mapped buffers. -/
def devOpen : V4L2Device := ⟨0, [], false⟩

/-- An open streaming device with one mapped buffer. -/
def devStreamingBuf : V4L2Device := ⟨0, [⟨4096, 614400, 0⟩], true⟩

/-- An open device with two mapped buffers, not yet streaming. -/
def devOpen2Buf : V4L2Device := ⟨3, [⟨4096, 614400, 0⟩, ⟨8192, 614400, 1⟩], false⟩

/-- A kernel response granting 4 buffers with every QUERYBUF and mmap
succeeding. -/
def mmapEnvEx : MmapEnv :=
  ⟨0, 4, fun i => ⟨0, 614400, 4096 * i⟩, fun i => some (4096 * (i + 1))⟩

/-- A main environment in which every stage succeeds. -/
def envAllOk : MainEnv :=
  ⟨1, true, true, true, true, V4L2_PIX_FMT_YUYV, true, true, true, true⟩

/-- A main environment in which InitMemoryMapping fails. -/
def envNoMmap : MainEnv :=
  ⟨1, true, true, true, true, V4L2_PIX_FMT_YUYV, true, true, false, true⟩

/-! Theorems -/

/-- C1: SetFormat returns true exactly when the device is open, the
VIDIOC_S_FMT ioctl succeeded, and the pixel format the driver reported back
equals the requested one; in particular a substituted pixel format makes
SetFormat return false. -/
theorem C1_setFormat_negotiation (d : V4L2Device) (w h pf : Nat)
    (resp : SFmtResp) :
    (d.SetFormat w h pf resp).1 = true ↔
      (d.IsOpen = true ∧ 0 ≤ resp.ret ∧ resp.pixelformat = pf) := by
  unfold V4L2Device.SetFormat
  rcases hOpen : d.IsOpen with _ | _ <;>
    by_cases hr : resp.ret < 0 <;>
      by_cases hp : resp.pixelformat = pf <;>
        simp [hOpen, hr, hp] <;> omega

/-- C9: QueueBuffer with an index at or past the number of mapped buffers
returns false, issues no ioctl, and leaves the device state unchanged. -/
theorem C9_queueBuffer_guard (d : V4L2Device) (index : Nat) (qbufRet : Int)
    (h : d.buffers.length ≤ index) :
    d.QueueBuffer index qbufRet = (false, d, []) := by
  unfold V4L2Device.QueueBuffer
  simp [h]

/-- C9 witness: QueueBuffer index 0 on a device with no mapped buffers. -/
theorem C9_queueBuffer_guard_witness :
    devOpen.QueueBuffer 0 0 = (false, devOpen, []) :=
  C9_queueBuffer_guard devOpen 0 0 (by decide)

/-- The std::string constructor applied to a NUL-terminated char array takes
the longest NUL-free initial segment of the array contents. -/
theorem cString_append_zero (l : List Nat) :
    cString (l ++ [0]) = l.takeWhile (fun b => b != 0) := by
  induction l with
  | nil => simp [cString]
  | cons b rest ih =>
    by_cases hb : b = 0 <;> simp [cString, List.takeWhile_cons, hb, ih]

/-- C8: PixelFormatToString returns the bytes of the format, least
significant first, truncated at the first zero byte; when all four bytes are
nonzero it returns exactly the four bytes in order. -/
theorem C8_pixelFormatToString (pf : Nat) :
    PixelFormatToString pf = (fourccBytes pf).takeWhile (fun b => b != 0) ∧
    ((∀ b ∈ fourccBytes pf, b ≠ 0) →
      (PixelFormatToString pf).length = 4 ∧
      PixelFormatToString pf = fourccBytes pf) := by
  refine ⟨cString_append_zero _, fun hall => ?_⟩
  simp only [fourccBytes, List.mem_cons, List.not_mem_nil, or_false,
    forall_eq_or_imp, forall_eq] at hall
  obtain ⟨h0, h1, h2, h3⟩ := hall
  constructor
  · simp [PixelFormatToString, fourccBytes, cString, h0, h1, h2, h3]
  · simp [PixelFormatToString, fourccBytes, cString, h0, h1, h2, h3]

/-- C8 witness: the YUYV fourcc has four nonzero bytes and maps to its four
bytes in order. -/
theorem C8_pixelFormatToString_witness :
    (∀ b ∈ fourccBytes V4L2_PIX_FMT_YUYV, b ≠ 0) ∧
    (PixelFormatToString V4L2_PIX_FMT_YUYV).length = 4 ∧
    PixelFormatToString V4L2_PIX_FMT_YUYV = fourccBytes V4L2_PIX_FMT_YUYV :=
  ⟨by decide, (C8_pixelFormatToString V4L2_PIX_FMT_YUYV).2 (by decide)⟩

/-- The preference loop picks the first preferred format contained in the
supported list, and otherwise the head of the supported list or 0. -/
theorem selectLoop_eq_find (supported prefs : List Nat) :
    selectLoop supported prefs =
      match prefs.find? (fun p => supported.contains p) with
      | some p => p
      | none => supported.headD 0 := by
  induction prefs with
  | nil => cases supported <;> simp [selectLoop, List.find?]
  | cons p rest ih =>
    by_cases hc : p ∈ supported <;> simp [selectLoop, List.find?, hc, ih]

/-- C6: SelectBestFormat returns the first format of the preference order
YUYV, UYVY, YUV420, MJPEG, JPEG occurring in the supported list; when none
occurs it returns the head of the supported list, and 0 for an empty list. -/
theorem C6_selectBestFormat (supported : List Nat) :
    SelectBestFormat supported =
      match kPreferredFormats.find? (fun p => supported.contains p) with
      | some p => p
      | none => supported.headD 0 :=
  selectLoop_eq_find supported kPreferredFormats

/-- C2: ReadFrame on a device that is not open or not streaming returns
false without issuing any ioctl; a successful ReadFrame issues exactly one
VIDIOC_DQBUF followed by one VIDIOC_QBUF of the same dequeued index, and
reports the start address of the buffer with the dequeued index together
with the driver's bytesused. -/
theorem C2_readFrame_dequeue_requeue (d : V4L2Device) (dq : DqbufResp)
    (qbufRet : Int) :
    (¬ (d.IsOpen = true ∧ d.streaming = true) →
      d.ReadFrame dq qbufRet = (false, none, [])) ∧
    ((d.ReadFrame dq qbufRet).1 = true →
      dq.index < d.buffers.length ∧ 0 ≤ dq.ret ∧ 0 ≤ qbufRet ∧
      (d.ReadFrame dq qbufRet).2.1 =
        some ((d.buffers.getD dq.index ⟨0, 0, 0⟩).start, dq.bytesused) ∧
      (d.ReadFrame dq qbufRet).2.2 =
        [.dqbuf dq.ret dq.index dq.bytesused, .qbuf dq.index qbufRet]) := by
  constructor
  · intro h
    rcases hO : d.IsOpen <;> rcases hS : d.streaming <;>
      simp [V4L2Device.ReadFrame, hO, hS] <;> simp [hO, hS] at h
  · intro h
    rcases hO : d.IsOpen <;> rcases hS : d.streaming <;>
      by_cases hr : dq.ret < 0 <;> by_cases hl : d.buffers.length ≤ dq.index <;>
        by_cases hq : qbufRet < 0 <;>
          simp [V4L2Device.ReadFrame, hO, hS, hr, hl, hq] at h ⊢ <;> omega

/-- C2 witness: a closed device rejects ReadFrame without ioctls, and a
streaming device with one buffer reports that buffer's address and size and
requeues index 0. -/
theorem C2_readFrame_witness :
    devOpen.ReadFrame ⟨0, 0, 614400⟩ 0 = (false, none, []) ∧
    ((⟨0, 0, 614400⟩ : DqbufResp).index < devStreamingBuf.buffers.length ∧
      0 ≤ (0 : Int) ∧ 0 ≤ (0 : Int) ∧
      (devStreamingBuf.ReadFrame ⟨0, 0, 614400⟩ 0).2.1 =
        some ((devStreamingBuf.buffers.getD 0 ⟨0, 0, 0⟩).start, 614400) ∧
      (devStreamingBuf.ReadFrame ⟨0, 0, 614400⟩ 0).2.2 =
        [.dqbuf 0 0 614400, .qbuf 0 0]) :=
  ⟨(C2_readFrame_dequeue_requeue devOpen ⟨0, 0, 614400⟩ 0).1 (by decide),
   (C2_readFrame_dequeue_requeue devStreamingBuf ⟨0, 0, 614400⟩ 0).2 (by decide)⟩

/-- C10 counterexample: on a streaming device whose VIDIOC_STREAMOFF ioctl
fails, Close sets fd_ to -1 and clears the buffers but leaves the streaming
flag set, so Close does not always reach the fully closed state. -/
theorem C10_close_counterexample :
    (devStreamingBuf.Close (-1)).fd = -1 ∧
    (devStreamingBuf.Close (-1)).buffers = [] ∧
    (devStreamingBuf.Close (-1)).streaming = true := by decide

/-- C10 amended: Close always leaves fd_ = -1 (the descriptor being -1 or
valid beforehand) and the buffer list empty; the streaming flag is cleared
whenever the device was not streaming or the VIDIOC_STREAMOFF ioctl
succeeds; Close on a fully closed device changes nothing; Open on an open
device performs this Close behavior before storing the new descriptor. -/
theorem close_eval (fd : Int) (bufs : List FrameBuffer) (str : Bool) (r : Int) :
    V4L2Device.Close ⟨fd, bufs, str⟩ r =
      ⟨if 0 ≤ fd then -1 else fd, [], str && decide (r < 0)⟩ := by
  cases str <;> by_cases hr : r < 0 <;> by_cases hf : (0 : Int) ≤ fd <;>
    simp [V4L2Device.Close, V4L2Device.StopStreaming,
      V4L2Device.CleanupMemoryMapping, hr, hf]

theorem C10_close_amended (d : V4L2Device) (streamoffRet newFd : Int)
    (hfd : d.fd = -1 ∨ 0 ≤ d.fd) :
    (d.Close streamoffRet).fd = -1 ∧
    (d.Close streamoffRet).buffers = [] ∧
    ((d.streaming = false ∨ 0 ≤ streamoffRet) →
      (d.Close streamoffRet).streaming = false) ∧
    (d.fd = -1 ∧ d.streaming = false ∧ d.buffers = [] →
      d.Close streamoffRet = d) ∧
    (d.IsOpen = true →
      (d.Open streamoffRet newFd).2 = { d.Close streamoffRet with fd := newFd }) := by
  obtain ⟨fd, bufs, str⟩ := d
  simp only [close_eval, V4L2Device.Open, V4L2Device.IsOpen,
    decide_eq_true_eq] at hfd ⊢
  refine ⟨?_, trivial, ?_, ?_, ?_⟩
  · split_ifs <;> omega
  · intro hpre
    rcases hpre with h | h
    · subst h; simp
    · cases str
      · simp
      · simp only [Bool.true_and, decide_eq_false_iff_not]
        omega
  · rintro ⟨h1, h2, h3⟩
    subst h1; subst h2; subst h3
    simp
  · intro hO
    by_cases hn : newFd < 0 <;> simp [hn, hO]

/-- C10 witness: closing an open streaming device with a succeeding
STREAMOFF reaches the fully closed state, and re-Open closes first. -/
theorem C10_close_amended_witness :
    (devStreamingBuf.Close 0).fd = -1 ∧
    (devStreamingBuf.Close 0).buffers = [] ∧
    (devStreamingBuf.Close 0).streaming = false ∧
    (devStreamingBuf.Open 0 5).2 = { devStreamingBuf.Close 0 with fd := 5 } :=
  ⟨(C10_close_amended devStreamingBuf 0 5 (by decide)).1,
   (C10_close_amended devStreamingBuf 0 5 (by decide)).2.1,
   (C10_close_amended devStreamingBuf 0 5 (by decide)).2.2.1 (Or.inr (by decide)),
   (C10_close_amended devStreamingBuf 0 5 (by decide)).2.2.2.2 (by decide)⟩

/-- The mapping loop succeeds exactly when, for every index it visits, the
VIDIOC_QUERYBUF ioctl succeeds and mmap does not fail (forward direction). -/
theorem mapLoop_ok_then (env : MmapEnv) (n : Nat) : ∀ i,
    (mapLoop env n i).1 = true →
      ∀ j < n, 0 ≤ (env.querybufAt (i + j)).ret ∧ (env.mmapAt (i + j)).isSome = true := by
  induction n with
  | zero => intro i h j hj; omega
  | succ n ih =>
    intro i h j hj
    simp only [mapLoop] at h
    by_cases hq : (env.querybufAt i).ret < 0
    · simp [hq] at h
    · rcases hm : env.mmapAt i with _ | addr
      · rw [hm] at h; simp [hq] at h
      · rw [hm] at h
        by_cases hr : (mapLoop env n (i + 1)).1 = true
        · cases j with
          | zero =>
            refine ⟨?_, ?_⟩
            · simp only [Nat.add_zero]; omega
            · simp [hm]
          | succ j =>
            have hx := ih (i + 1) hr j (by omega)
            rw [show i + (j + 1) = i + 1 + j from by omega]
            exact hx
        · rw [if_neg hq] at h
          simp [hr] at h

/-- The mapping loop succeeds when every visited QUERYBUF and mmap succeeds
(backward direction). -/
theorem mapLoop_ok_of (env : MmapEnv) (n : Nat) : ∀ i,
    (∀ j < n, 0 ≤ (env.querybufAt (i + j)).ret ∧ (env.mmapAt (i + j)).isSome = true) →
      (mapLoop env n i).1 = true := by
  induction n with
  | zero => intro i h; simp [mapLoop]
  | succ n ih =>
    intro i h
    have h0 := h 0 (by omega)
    simp only [Nat.add_zero] at h0
    have hq : ¬((env.querybufAt i).ret < 0) := by omega
    rcases hm : env.mmapAt i with _ | addr
    · rw [hm] at h0; simp at h0
    · have hr : (mapLoop env n (i + 1)).1 = true := by
        apply ih
        intro j hj
        have hx := h (j + 1) (by omega)
        rw [show i + 1 + j = i + (j + 1) from by omega]
        exact hx
      simp only [mapLoop]
      rw [if_neg hq, hm]
      simp [hr]

/-- A successful mapping loop over n indices produces exactly n buffers. -/
theorem mapLoop_len (env : MmapEnv) (n : Nat) : ∀ i,
    (mapLoop env n i).1 = true → (mapLoop env n i).2.1.length = n := by
  induction n with
  | zero => intro i h; simp [mapLoop]
  | succ n ih =>
    intro i h
    simp only [mapLoop] at h ⊢
    by_cases hq : (env.querybufAt i).ret < 0
    · simp [hq] at h
    · rcases hm : env.mmapAt i with _ | addr
      · rw [hm] at h; simp [hq] at h
      · rw [hm] at h
        by_cases hr : (mapLoop env n (i + 1)).1 = true
        · simp [hq, hr, ih (i + 1) hr]
        · simp [hq, hr] at h

/-- Every QUERYBUF recorded by a successful mapping loop returned 0 or
more. -/
theorem mapLoop_nonneg (env : MmapEnv) (n : Nat) : ∀ i,
    (mapLoop env n i).1 = true → ∀ c ∈ (mapLoop env n i).2.2, 0 ≤ c.retOf := by
  induction n with
  | zero => intro i h c hc; simp [mapLoop] at hc
  | succ n ih =>
    intro i h c hc
    simp only [mapLoop] at h hc
    by_cases hq : (env.querybufAt i).ret < 0
    · simp [hq] at h
    · rcases hm : env.mmapAt i with _ | addr
      · rw [hm] at h; simp [hq] at h
      · rw [hm] at h hc
        by_cases hr : (mapLoop env n (i + 1)).1 = true
        · simp only [hq, hr, if_true, if_false] at hc
          rcases List.mem_cons.mp hc with h1 | h1
          · subst h1; simp [IoctlCall.retOf]; omega
          · exact ih (i + 1) hr c h1
        · simp [hq, hr] at h

/-- Every VIDIOC_QBUF recorded by a successful enqueue loop returned 0 or
more. -/
theorem enqueueLoop_nonneg (f : Nat → Int) (n : Nat) : ∀ i,
    (enqueueLoop f n i).1 = true → ∀ c ∈ (enqueueLoop f n i).2, 0 ≤ c.retOf := by
  induction n with
  | zero => intro i h c hc; simp [enqueueLoop] at hc
  | succ n ih =>
    intro i h c hc
    simp only [enqueueLoop] at h hc
    by_cases hr : f i < 0
    · simp [hr] at h
    · simp only [hr, if_false] at h hc
      rcases List.mem_cons.mp hc with h1 | h1
      · subst h1; simp [IoctlCall.retOf]; omega
      · exact ih (i + 1) h c h1

/-- InitMemoryMapping succeeds exactly when the device is open, REQBUFS
succeeds, at least 2 buffers are granted, and the whole mapping loop
succeeds. -/
theorem initMM_ok_iff (d : V4L2Device) (env : MmapEnv) :
    (d.InitMemoryMapping env).1 = true ↔
      (d.IsOpen = true ∧ 0 ≤ env.reqbufsRet ∧ 2 ≤ env.grantedCount ∧
        (mapLoop env env.grantedCount 0).1 = true) := by
  rcases hO : d.IsOpen with _ | _ <;>
    by_cases hreq : env.reqbufsRet < 0 <;>
      by_cases hg : env.grantedCount < 2 <;>
        by_cases hml : (mapLoop env env.grantedCount 0).1 = true <;>
          simp [V4L2Device.InitMemoryMapping, hO, hreq, hg, hml] <;> omega

/-- On success the buffers of InitMemoryMapping are those of the mapping
loop. -/
theorem initMM_buffers (d : V4L2Device) (env : MmapEnv) :
    (d.InitMemoryMapping env).1 = true →
      (d.InitMemoryMapping env).2.1.buffers = (mapLoop env env.grantedCount 0).2.1 := by
  rcases hO : d.IsOpen with _ | _ <;>
    by_cases hreq : env.reqbufsRet < 0 <;>
      by_cases hg : env.grantedCount < 2 <;>
        by_cases hml : (mapLoop env env.grantedCount 0).1 = true <;>
          simp [V4L2Device.InitMemoryMapping, V4L2Device.CleanupMemoryMapping,
            hO, hreq, hg, hml]

/-- On success the trace of InitMemoryMapping is the REQBUFS call followed by
the mapping loop's QUERYBUF calls. -/
theorem initMM_trace (d : V4L2Device) (env : MmapEnv) :
    (d.InitMemoryMapping env).1 = true →
      (d.InitMemoryMapping env).2.2 =
        .reqbufs env.reqbufsRet :: (mapLoop env env.grantedCount 0).2.2 := by
  rcases hO : d.IsOpen with _ | _ <;>
    by_cases hreq : env.reqbufsRet < 0 <;>
      by_cases hg : env.grantedCount < 2 <;>
        by_cases hml : (mapLoop env env.grantedCount 0).1 = true <;>
          simp [V4L2Device.InitMemoryMapping, V4L2Device.CleanupMemoryMapping,
            hO, hreq, hg, hml]

/-- C4: InitMemoryMapping is atomic: whenever it fails (device not open,
REQBUFS failure, fewer than 2 granted buffers, or any QUERYBUF or mmap
failure) the buffer list is left empty; it succeeds exactly when the device
is open, REQBUFS succeeds, at least 2 buffers are granted and every granted
buffer maps, and then the buffer list holds exactly the granted count. -/
theorem C4_initMemoryMapping_atomic (d : V4L2Device) (env : MmapEnv)
    (hinv : d.IsOpen = false → d.buffers = []) :
    ((d.InitMemoryMapping env).1 = false → (d.InitMemoryMapping env).2.1.buffers = []) ∧
    ((d.InitMemoryMapping env).1 = true ↔
      (d.IsOpen = true ∧ 0 ≤ env.reqbufsRet ∧ 2 ≤ env.grantedCount ∧
        ∀ i < env.grantedCount,
          0 ≤ (env.querybufAt i).ret ∧ (env.mmapAt i).isSome = true)) ∧
    ((d.InitMemoryMapping env).1 = true →
      (d.InitMemoryMapping env).2.1.buffers.length = env.grantedCount) := by
  refine ⟨?_, ?_, ?_⟩
  · intro h
    rcases hO : d.IsOpen with _ | _
    · simp [V4L2Device.InitMemoryMapping, hO, hinv hO]
    · by_cases hreq : env.reqbufsRet < 0
      · simp [V4L2Device.InitMemoryMapping, V4L2Device.CleanupMemoryMapping, hO, hreq]
      · by_cases hg : env.grantedCount < 2
        · simp [V4L2Device.InitMemoryMapping, V4L2Device.CleanupMemoryMapping,
            hO, hreq, hg]
        · by_cases hml : (mapLoop env env.grantedCount 0).1 = true
          · simp [V4L2Device.InitMemoryMapping, hO, hreq, hg, hml] at h
          · simp [V4L2Device.InitMemoryMapping, V4L2Device.CleanupMemoryMapping,
              hO, hreq, hg, hml]
  · constructor
    · intro h
      have hc := (initMM_ok_iff d env).mp h
      refine ⟨hc.1, hc.2.1, hc.2.2.1, fun i hi => ?_⟩
      have := mapLoop_ok_then env env.grantedCount 0 hc.2.2.2 i hi
      simpa using this
    · rintro ⟨h1, h2, h3, h4⟩
      apply (initMM_ok_iff d env).mpr
      refine ⟨h1, h2, h3, mapLoop_ok_of env env.grantedCount 0 fun j hj => ?_⟩
      simpa using h4 j hj
  · intro h
    rw [initMM_buffers d env h]
    exact mapLoop_len env env.grantedCount 0 ((initMM_ok_iff d env).mp h).2.2.2

/-- C4 witness: an open device with a granting kernel ends with exactly the
granted count of mapped buffers. -/
theorem C4_initMemoryMapping_atomic_witness :
    (devOpen.InitMemoryMapping mmapEnvEx).1 = true ∧
    (devOpen.InitMemoryMapping mmapEnvEx).2.1.buffers.length = mmapEnvEx.grantedCount :=
  ⟨(C4_initMemoryMapping_atomic devOpen mmapEnvEx (by decide)).2.1.mpr
      ⟨by decide, by decide, by decide, by decide⟩,
   (C4_initMemoryMapping_atomic devOpen mmapEnvEx (by decide)).2.2 (by decide)⟩

/-- C3 counterexample: on a device whose driver enumerates no formats, the
terminating VIDIOC_ENUM_FMT ioctl returns -1 and QueryFormats nevertheless
returns true, so a negative ioctl return does not always make the operation
return false. -/
theorem C3_counterexample :
    (devOpen.QueryFormats []).1 = true ∧
    ∃ c ∈ (devOpen.QueryFormats []).2.2, c.retOf < 0 := by decide

/-- A successful StartStreaming had a nonnegative STREAMON return, a fully
successful enqueue loop, and its trace is the QBUF calls followed by the
STREAMON call. -/
theorem startStreaming_trace (d : V4L2Device) (f : Nat → Int) (r : Int)
    (h : (d.StartStreaming f r).1 = true) :
    0 ≤ r ∧ (enqueueLoop f d.buffers.length 0).1 = true ∧
    (d.StartStreaming f r).2.2 = (enqueueLoop f d.buffers.length 0).2 ++ [.streamon r] := by
  rcases hO : d.IsOpen with _ | _ <;>
    rcases hB : d.buffers.isEmpty with _ | _ <;>
      by_cases he : (enqueueLoop f d.buffers.length 0).1 = true <;>
        by_cases hs : r < 0 <;>
          simp [V4L2Device.StartStreaming, hO, hB, he, hs] at h ⊢ <;> omega

/-- C3 amended: every V4L2Device operation that issues an ioctl, except
QueryFormats, returns true only if every ioctl it issued returned 0 or more;
QueryFormats instead uses a negative ENUM_FMT return as its end-of-
enumeration condition and returns true unconditionally. -/
theorem C3_amended_ioctl_errors (d : V4L2Device) (querycapRet : Int)
    (driverFormats : List Nat) (w ht pf : Nat) (sresp : SFmtResp)
    (gresp : GFmtResp) (menv : MmapEnv) (qbufRetAt : Nat → Int)
    (streamonRet streamoffRet qbufRet : Int) (dq : DqbufResp) (index : Nat) :
    ((d.QueryCapabilities querycapRet).1 = true →
      allNonneg (d.QueryCapabilities querycapRet).2) ∧
    ((d.SetFormat w ht pf sresp).1 = true → allNonneg (d.SetFormat w ht pf sresp).2) ∧
    ((d.GetFormat gresp).1 = true → allNonneg (d.GetFormat gresp).2.2) ∧
    ((d.InitMemoryMapping menv).1 = true → allNonneg (d.InitMemoryMapping menv).2.2) ∧
    ((d.StartStreaming qbufRetAt streamonRet).1 = true →
      allNonneg (d.StartStreaming qbufRetAt streamonRet).2.2) ∧
    ((d.StopStreaming streamoffRet).1 = true →
      allNonneg (d.StopStreaming streamoffRet).2.2) ∧
    ((d.ReadFrame dq qbufRet).1 = true → allNonneg (d.ReadFrame dq qbufRet).2.2) ∧
    ((d.QueueBuffer index qbufRet).1 = true →
      allNonneg (d.QueueBuffer index qbufRet).2.2) ∧
    (d.QueryFormats driverFormats).1 = true := by
  refine ⟨?_, ?_, ?_, ?_, ?_, ?_, ?_, ?_, rfl⟩
  · intro h
    by_cases hq : querycapRet < 0
    · simp [V4L2Device.QueryCapabilities, hq] at h
    · simp [V4L2Device.QueryCapabilities, hq, allNonneg, IoctlCall.retOf]
      omega
  · intro h
    rcases hO : d.IsOpen with _ | _
    · simp [V4L2Device.SetFormat, hO] at h
    · by_cases hr : sresp.ret < 0
      · simp [V4L2Device.SetFormat, hO, hr] at h
      · by_cases hp : sresp.pixelformat = pf <;>
          simp [V4L2Device.SetFormat, hO, hr, hp, allNonneg, IoctlCall.retOf] <;>
            omega
  · intro h
    rcases hO : d.IsOpen with _ | _
    · simp [V4L2Device.GetFormat, hO] at h
    · by_cases hr : gresp.ret < 0
      · simp [V4L2Device.GetFormat, hO, hr] at h
      · simp [V4L2Device.GetFormat, hO, hr, allNonneg, IoctlCall.retOf]
        omega
  · intro h
    rw [initMM_trace d menv h]
    intro c hc
    rcases List.mem_cons.mp hc with h1 | h1
    · subst h1
      have := ((initMM_ok_iff d menv).mp h).2.1
      simpa [IoctlCall.retOf] using this
    · exact mapLoop_nonneg menv menv.grantedCount 0
        ((initMM_ok_iff d menv).mp h).2.2.2 c h1
  · intro h
    obtain ⟨hs, he, htr⟩ := startStreaming_trace d qbufRetAt streamonRet h
    rw [htr]
    intro c hc
    rcases List.mem_append.mp hc with h1 | h1
    · exact enqueueLoop_nonneg qbufRetAt d.buffers.length 0 he c h1
    · simp only [List.mem_singleton] at h1
      subst h1
      simpa [IoctlCall.retOf] using hs
  · intro h
    rcases hS : d.streaming with _ | _
    · simp [V4L2Device.StopStreaming, hS, allNonneg]
    · by_cases hr : streamoffRet < 0
      · simp [V4L2Device.StopStreaming, hS, hr] at h
      · simp [V4L2Device.StopStreaming, hS, hr, allNonneg, IoctlCall.retOf]
        omega
  · intro h
    rcases hO : d.IsOpen with _ | _
    · simp [V4L2Device.ReadFrame, hO] at h
    · rcases hS : d.streaming with _ | _
      · simp [V4L2Device.ReadFrame, hO, hS] at h
      · by_cases hr : dq.ret < 0
        · simp [V4L2Device.ReadFrame, hO, hS, hr] at h
        · by_cases hl : d.buffers.length ≤ dq.index
          · simp [V4L2Device.ReadFrame, hO, hS, hr, hl] at h
          · by_cases hqb : qbufRet < 0
            · simp [V4L2Device.ReadFrame, hO, hS, hr, hl, hqb] at h
            · simp [V4L2Device.ReadFrame, hO, hS, hr, hl, hqb, allNonneg,
                IoctlCall.retOf]
              omega
  · intro h
    by_cases hl : d.buffers.length ≤ index
    · simp [V4L2Device.QueueBuffer, hl] at h
    · by_cases hqb : qbufRet < 0
      · simp [V4L2Device.QueueBuffer, hl, hqb] at h
      · simp [V4L2Device.QueueBuffer, hl, hqb, allNonneg, IoctlCall.retOf]
        omega

/-- C3 amended witness: on an open streaming device with one buffer and a
cooperative kernel, every operation succeeds and its recorded ioctls all
returned 0 or more. -/
theorem C3_amended_ioctl_errors_witness :
    allNonneg (devStreamingBuf.QueryCapabilities 0).2 ∧
    allNonneg (devStreamingBuf.SetFormat 640 480 V4L2_PIX_FMT_YUYV
      ⟨0, 640, 480, V4L2_PIX_FMT_YUYV⟩).2 ∧
    allNonneg (devStreamingBuf.GetFormat ⟨0, 640, 480, V4L2_PIX_FMT_YUYV⟩).2.2 ∧
    allNonneg (devStreamingBuf.InitMemoryMapping mmapEnvEx).2.2 ∧
    allNonneg (devStreamingBuf.StartStreaming (fun _ => 0) 0).2.2 ∧
    allNonneg (devStreamingBuf.StopStreaming 0).2.2 ∧
    allNonneg (devStreamingBuf.ReadFrame ⟨0, 0, 614400⟩ 0).2.2 ∧
    allNonneg (devStreamingBuf.QueueBuffer 0 0).2.2 ∧
    (devStreamingBuf.QueryFormats [V4L2_PIX_FMT_YUYV]).1 = true := by
  have h := C3_amended_ioctl_errors devStreamingBuf 0 [V4L2_PIX_FMT_YUYV] 640 480
    V4L2_PIX_FMT_YUYV ⟨0, 640, 480, V4L2_PIX_FMT_YUYV⟩ ⟨0, 640, 480, V4L2_PIX_FMT_YUYV⟩
    mmapEnvEx (fun _ => 0) 0 0 0 ⟨0, 0, 614400⟩ 0
  exact ⟨h.1 (by decide), h.2.1 (by decide), h.2.2.1 (by decide),
    h.2.2.2.1 (by decide), h.2.2.2.2.1 (by decide), h.2.2.2.2.2.1 (by decide),
    h.2.2.2.2.2.2.1 (by decide), h.2.2.2.2.2.2.2.1 (by decide),
    h.2.2.2.2.2.2.2.2⟩

/-- One capture-loop iteration keeps the saved-frame index below
kMaxSavedFrames. -/
theorem loopIter_index_lt (stats : FrameStats) (now : Int) (r s : Bool)
    (h : stats.current_frame_index < kMaxSavedFrames) :
    (loopIter stats now r s).1.current_frame_index < kMaxSavedFrames := by
  unfold loopIter
  cases r <;> cases s <;>
    simp only [apply_ite FrameStats.current_frame_index,
      apply_ite FrameStats.last_save_time, ite_self] <;>
    split_ifs <;> simp_all [kMaxSavedFrames] <;> omega

/-- Running the capture loop keeps the saved-frame index below
kMaxSavedFrames. -/
theorem runLoop_index_lt (events : List (Int × Bool × Bool)) :
    ∀ stats : FrameStats, stats.current_frame_index < kMaxSavedFrames →
      (runLoop stats events).current_frame_index < kMaxSavedFrames := by
  induction events with
  | nil => intro stats h; exact h
  | cons e rest ih =>
    intro stats h
    obtain ⟨now, r, s⟩ := e
    exact ih _ (loopIter_index_lt stats now r s h)

/-- An iteration that saved a frame did so at least kSaveIntervalSeconds
after the previous successful save, records now as the new last save time,
counts the save, and advances the index modulo kMaxSavedFrames. -/
theorem loopIter_saved (stats : FrameStats) (now : Int) (r s : Bool)
    (h : (loopIter stats now r s).2 = true) :
    kSaveIntervalSeconds ≤ now - stats.last_save_time ∧
    (loopIter stats now r s).1.last_save_time = now ∧
    (loopIter stats now r s).1.saved_frames = stats.saved_frames + 1 ∧
    (loopIter stats now r s).1.current_frame_index =
      (stats.current_frame_index + 1) % kMaxSavedFrames := by
  unfold loopIter at h ⊢
  cases r <;> cases s <;>
    simp only [apply_ite FrameStats.current_frame_index,
      apply_ite FrameStats.last_save_time, apply_ite FrameStats.saved_frames,
      ite_self] at h ⊢ <;>
    split_ifs at h ⊢ <;> simp_all

/-- C5: in the capture loop a frame is saved only when at least
kSaveIntervalSeconds have passed since the last successful save (whose time
the save then records), and the saved-file index always stays below
kMaxSavedFrames = 20, advancing modulo 20 after each successful save;
starting from the initial statistics the index therefore never leaves
0..19. -/
theorem C5_save_throttling (stats : FrameStats) (now : Int)
    (readOk saveOk : Bool) (events : List (Int × Bool × Bool)) (start : Int) :
    ((loopIter stats now readOk saveOk).2 = true →
      kSaveIntervalSeconds ≤ now - stats.last_save_time ∧
      (loopIter stats now readOk saveOk).1.last_save_time = now ∧
      (loopIter stats now readOk saveOk).1.current_frame_index =
        (stats.current_frame_index + 1) % kMaxSavedFrames) ∧
    (stats.current_frame_index < kMaxSavedFrames →
      (runLoop stats events).current_frame_index < kMaxSavedFrames) ∧
    (runLoop (initStats start) events).current_frame_index < kMaxSavedFrames := by
  refine ⟨fun h => ?_, fun h => runLoop_index_lt events stats h, ?_⟩
  · have hx := loopIter_saved stats now readOk saveOk h
    exact ⟨hx.1, hx.2.1, hx.2.2.2⟩
  · exact runLoop_index_lt events (initStats start)
      (by simp [initStats, kMaxSavedFrames])

/-- C5 witness: one save at second 101 after a start at second 100 satisfies
the interval bound, records the new save time, advances the index, and the
index bound holds after running that event. -/
theorem C5_save_throttling_witness :
    (kSaveIntervalSeconds ≤ (101 : Int) - (initStats 100).last_save_time ∧
      (loopIter (initStats 100) 101 true true).1.last_save_time = 101 ∧
      (loopIter (initStats 100) 101 true true).1.current_frame_index =
        ((initStats 100).current_frame_index + 1) % kMaxSavedFrames) ∧
    (runLoop (initStats 100) [(101, true, true)]).current_frame_index <
      kMaxSavedFrames :=
  ⟨(C5_save_throttling (initStats 100) 101 true true [(101, true, true)] 100).1
      (by decide),
   (C5_save_throttling (initStats 100) 101 true true [(101, true, true)] 100).2.1
      (by decide)⟩

/-- A list is an initial segment of another when taking its length from the
other gives it back. -/
theorem listLeads_of_take (a b : List Stage) (h : b.take a.length = a) :
    listLeads a b := by
  refine ⟨b.drop a.length, ?_⟩
  calc a ++ b.drop a.length
      = b.take a.length ++ b.drop a.length := by rw [h]
    _ = b := List.take_append_drop _ _

/-- C7: the demo main runs its stages in program order: the executed stages
are always an initial segment of the full stage order ending in the capture
loop; main reaches the capture loop exactly when every stage succeeded, and
on any stage failure it exits with EXIT_FAILURE before the capture loop (or
any other later stage) runs. -/
theorem C7_pipeline_order (env : MainEnv) :
    listLeads (mainRun env).1 mainStages ∧
    ((mainRun env).2 = true ↔ (mainRun env).1 = mainStages) ∧
    ((mainRun env).2 = false → Stage.captureLoop ∉ (mainRun env).1) := by
  unfold mainRun
  by_cases h1 : env.deviceCount = 0
  · rw [if_pos h1]; exact ⟨listLeads_of_take _ _ (by decide), by decide, by decide⟩
  rw [if_neg h1]
  by_cases h2 : env.cameraFound = false
  · rw [if_pos h2]; exact ⟨listLeads_of_take _ _ (by decide), by decide, by decide⟩
  rw [if_neg h2]
  by_cases h3 : env.createDirOk = false
  · rw [if_pos h3]; exact ⟨listLeads_of_take _ _ (by decide), by decide, by decide⟩
  rw [if_neg h3]
  by_cases h4 : env.openOk = false
  · rw [if_pos h4]; exact ⟨listLeads_of_take _ _ (by decide), by decide, by decide⟩
  rw [if_neg h4]
  by_cases h5 : env.getInfoOk = false
  · rw [if_pos h5]; exact ⟨listLeads_of_take _ _ (by decide), by decide, by decide⟩
  rw [if_neg h5]
  by_cases h6 : env.selectedFormat = 0
  · rw [if_pos h6]; exact ⟨listLeads_of_take _ _ (by decide), by decide, by decide⟩
  rw [if_neg h6]
  by_cases h7 : env.setFormatOk = false
  · rw [if_pos h7]; exact ⟨listLeads_of_take _ _ (by decide), by decide, by decide⟩
  rw [if_neg h7]
  by_cases h8 : env.getFormatOk = false
  · rw [if_pos h8]; exact ⟨listLeads_of_take _ _ (by decide), by decide, by decide⟩
  rw [if_neg h8]
  by_cases h9 : env.initMmapOk = false
  · rw [if_pos h9]; exact ⟨listLeads_of_take _ _ (by decide), by decide, by decide⟩
  rw [if_neg h9]
  by_cases h10 : env.startStreamOk = false
  · rw [if_pos h10]; exact ⟨listLeads_of_take _ _ (by decide), by decide, by decide⟩
  rw [if_neg h10]
  exact ⟨listLeads_of_take _ _ (by decide), by decide, by decide⟩

/-- C7 witness: with every stage succeeding main reaches the capture loop
having run the full stage order, and with InitMemoryMapping failing the
capture loop never runs. -/
theorem C7_pipeline_order_witness :
    listLeads (mainRun envAllOk).1 mainStages ∧
    (mainRun envAllOk).1 = mainStages ∧
    Stage.captureLoop ∉ (mainRun envNoMmap).1 :=
  ⟨(C7_pipeline_order envAllOk).1,
   (C7_pipeline_order envAllOk).2.1.mp (by decide),
   (C7_pipeline_order envNoMmap).2.2 (by decide)⟩
